import Mathlib

/-!
Verification of the Snaplicator clone-orchestrator backend
(`backend/app/services/docker_pg.py`, `backend/app/services/btrfs.py`,
`backend/app/services/replication.py`) against its natural-language
specification.

The services are sequential Python programs whose only effects are
subprocess invocations (btrfs, docker, psql, mv, ...).  We embed them
shallowly:

* the filesystem is a map from resolved path strings to existence and
  subvolume-ness Booleans;
* the container runtime is a list of containers (name, parsed inspect
  data: the 5432/tcp host-port binding and the mount list);
* every external command that can fail is given its outcome by an
  explicit oracle record, so the embedded functions are pure and total;
* each operation also appends the externally visible *mutating* commands
  it issues to an action trace, so that "performs no mutation" and
  "deletes / does not delete X" are statable;
* a Python exception is an `Except.error`; distinct exception classes
  (FileNotFoundError, ValueError, FileExistsError, PermissionError,
  RuntimeError, subprocess.CalledProcessError) are distinct `Err`
  constructors, and `try/except SomeError` is a `match` on the error.

Paths are strings manipulated exactly as the source does (`Path(a)/b`,
`.resolve()`, `.name`, `.parent`, `str.startswith`); `resolve` is
modelled lexically on components, which matches `os.path.realpath` on
symlink-free trees.  String primitives are implemented on `List Char`
so that every definition evaluates inside the kernel.
-/

namespace Snaplicator

/-! ## String and path primitives -/

/-- Split a character list on a separator, like Python `str.split(sep)` /
Lean `String.splitOn` (empty chunks kept). -/
def chSplit (sep : Char) : List Char → List (List Char)
  | [] => [[]]
  | c :: rest =>
    let r := chSplit sep rest
    if c = sep then [] :: r
    else match r with
      | [] => [[c]]
      | g :: gs => (c :: g) :: gs

/-- Path components of a path string: split on `/`, drop empty components. -/
def splitPath (s : String) : List (List Char) :=
  (chSplit '/' s.data).filter (fun c => c ≠ [])

/-- Lexical normalisation of `.` and `..` components, as `os.path.realpath`
performs on a symlink-free tree (a leading `..` at the root is dropped). -/
def normComps (cs : List (List Char)) : List (List Char) :=
  cs.foldl (fun acc c =>
    if c = ['.'] then acc
    else if c = ['.', '.'] then acc.dropLast
    else acc ++ [c]) []

def joinCompChars : List (List Char) → List Char
  | [] => []
  | [c] => '/' :: c
  | c :: rest => ('/' :: c) ++ joinCompChars rest

/-- Rebuild an absolute path string from components. -/
def joinComps (cs : List (List Char)) : String :=
  match cs with
  | [] => "/"
  | _ => String.mk (joinCompChars cs)

/-- Model of `pathlib.Path(s).resolve()` for an absolute `s`. -/
def resolveStr (s : String) : String :=
  joinComps (normComps (splitPath s))

/-- Model of Python `str.startswith`. -/
def chStartsWith : List Char → List Char → Bool
  | _, [] => true
  | [], _ :: _ => false
  | a :: as, b :: bs => a = b && chStartsWith as bs

def strStartsWith (s p : String) : Bool := chStartsWith s.data p.data

/-- Model of `pathlib.Path(s).name` (last component). -/
def baseName (s : String) : String :=
  String.mk (((splitPath s).getLast?).getD [])

/-- Model of `pathlib.Path(s).parent` (drop last component, purely
syntactic, as in pathlib). -/
def parentStr (s : String) : String :=
  joinComps ((splitPath s).dropLast)

/-- Model of `pathlib.Path(base) / name`: `name` wins when absolute. -/
def pyJoin (base name : String) : String :=
  if strStartsWith name "/" then name else base ++ "/" ++ name

/-! ## Errors, commands, actions, world state -/

/-- The Python exception classes raised by the services.  The spec's
taxonomy maps onto them: NotFound = FileNotFoundError, InvalidState =
ValueError, AlreadyExists = FileExistsError, PermissionDenied =
PermissionError, DependencyFailed / ResourceExhausted /
ConfigurationError = RuntimeError, plus the raw
`subprocess.CalledProcessError` escaping from `_run`. -/
inductive Err where
  | notFound
  | invalidState
  | alreadyExists
  | permissionDenied
  | runtimeError
  | calledProcessError
deriving DecidableEq, Repr

/-- Outcome of one external process run, as `subprocess.run` reports it:
exit status zero with stdout, or a non-zero exit with stderr. -/
inductive CmdResult where
  | ok (stdout : String)
  | failed (code : Nat) (stderr : String)
deriving DecidableEq, Repr

deriving instance DecidableEq for Except

def CmdResult.succeeded : CmdResult → Bool
  | .ok _ => true
  | .failed _ _ => false

/-- `_run(cmd)` = `subprocess.run(cmd, check=True, ...)`: raises
`CalledProcessError` exactly on a non-zero exit. -/
def run_checked (r : CmdResult) : Except Err String :=
  match r with
  | .ok out => .ok out
  | .failed _ _ => .error .calledProcessError

/-- Externally visible mutating commands the services issue.  Read-only
probes (`btrfs subvolume show`, `docker inspect`, `findmnt`, `ss`,
`pg_isready`, psql SELECTs) are not traced. -/
inductive Action where
  | btrfsSnapshot (src dst : String)
  | btrfsDelete (path : String)
  | chownCmd (path : String)
  | chmodCmd (path : String)
  | writeMeta (path : String)
  | setXattr (path : String)
  | setRo (path : String) (tsFlag : Bool)
  | mvCmd (src dst : String)
  | dockerRm (name : String)
  | dockerRun (name : String) (port : Nat) (volume : String)
  | allocPort (start : Nat)
deriving DecidableEq, Repr

/-- The parsed `docker inspect` view of one container.  `parseOk = false`
models inspect output that `json.loads` rejects.  `ports5432` is
`NetworkSettings.Ports["5432/tcp"]`: `none` when the key is absent or
null, otherwise the binding list, each entry being its parsed `HostPort`
(`none` when missing or non-numeric). -/
structure Mount where
  dest : String
  source : String
deriving DecidableEq, Repr

structure Container where
  name : String
  parseOk : Bool
  ports5432 : Option (List (Option Nat))
  mounts : List Mount
deriving DecidableEq, Repr

/-- World state: existence and subvolume-ness of (resolved) paths, the
container list, and the trace of mutating commands issued so far. -/
structure St where
  fs : String → Bool
  subvol : String → Bool
  containers : List Container
  trace : List Action

/-- Point update of a `String → Bool` map. -/
def upd (f : String → Bool) (k : String) (b : Bool) : String → Bool :=
  fun q => if q = k then b else f q

/-- Append an action to the trace. -/
def emit (a : Action) (st : St) : St := { st with trace := st.trace ++ [a] }

/-- `sudo btrfs subvolume snapshot SRC DST`: on success `DST` comes into
existence as a subvolume. -/
def btrfsSnapshotStep (cmdOk : Bool) (src dst : String) (st : St) :
    Except Err Unit × St :=
  let st := emit (.btrfsSnapshot src dst) st
  if cmdOk then
    (.ok (), { st with fs := upd st.fs (resolveStr dst) true
                       subvol := upd st.subvol (resolveStr dst) true })
  else (.error .calledProcessError, st)

/-- `sudo btrfs subvolume delete PATH`. -/
def btrfsDeleteStep (cmdOk : Bool) (path : String) (st : St) :
    Except Err Unit × St :=
  let st := emit (.btrfsDelete path) st
  if cmdOk then
    (.ok (), { st with fs := upd st.fs (resolveStr path) false
                       subvol := upd st.subvol (resolveStr path) false })
  else (.error .calledProcessError, st)

/-- `sudo mv SRC DST`: existence and subvolume-ness move from `SRC` to
`DST`. -/
def mvStep (cmdOk : Bool) (src dst : String) (st : St) :
    Except Err Unit × St :=
  let st := emit (.mvCmd src dst) st
  if cmdOk then
    let sK := resolveStr src
    let dK := resolveStr dst
    let fsv := st.fs sK
    let svv := st.subvol sK
    (.ok (), { st with fs := upd (upd st.fs sK false) dK fsv
                       subvol := upd (upd st.subvol sK false) dK svv })
  else (.error .calledProcessError, st)

/-- `sudo chown -R uid:gid PATH` (ownership itself is not tracked). -/
def chownStep (cmdOk : Bool) (path : String) (st : St) :
    Except Err Unit × St :=
  let st := emit (.chownCmd path) st
  if cmdOk then (.ok (), st) else (.error .calledProcessError, st)

/-- `sudo chmod -R u+rwX,go-rwx PATH`. -/
def chmodStep (cmdOk : Bool) (path : String) (st : St) :
    Except Err Unit × St :=
  let st := emit (.chmodCmd path) st
  if cmdOk then (.ok (), st) else (.error .calledProcessError, st)

/-- Writing the `.snaplicator.json` metadata file via `sudo bash -lc`. -/
def writeMetaStep (cmdOk : Bool) (path : String) (st : St) :
    Except Err Unit × St :=
  let st := emit (.writeMeta path) st
  if cmdOk then (.ok (), st) else (.error .calledProcessError, st)

/-- `sudo setfattr -n user.snaplicator ... PATH`. -/
def setXattrStep (cmdOk : Bool) (path : String) (st : St) :
    Except Err Unit × St :=
  let st := emit (.setXattr path) st
  if cmdOk then (.ok (), st) else (.error .calledProcessError, st)

/-- `sudo btrfs property set [-ts] PATH ro true`; `tsFlag` records which
command syntax was used. -/
def setRoStep (cmdOk : Bool) (tsFlag : Bool) (path : String) (st : St) :
    Except Err Unit × St :=
  let st := emit (.setRo path tsFlag) st
  if cmdOk then (.ok (), st) else (.error .calledProcessError, st)

/-- `try: _run(...) / except subprocess.CalledProcessError: pass`. -/
def catchCPE (r : Except Err Unit × St) : Except Err Unit × St :=
  match r with
  | (.error .calledProcessError, st) => (.ok (), st)
  | other => other

/-- `docker rm -f NAME` with `check=False`: never fails, removes the
container when present. -/
def dockerRmForce (name : String) (st : St) : St :=
  { st with containers := st.containers.filter (fun c => !(c.name == name))
            trace := st.trace ++ [Action.dockerRm name] }

/-! ## `create_snapshot` (claim C5)

Translated from `btrfs.py::create_snapshot`.  `ts` is the
`YYYYMMDD-HHMMSS` timestamp `datetime.now()` produced; the oracle gives
the outcome of each external command.  The metadata file and xattr
writes are individually wrapped in `try/except CalledProcessError:
pass`; the read-only toggle first tries `btrfs property set -ts` and
falls back to the plain syntax when that fails. -/

structure SnapOracle where
  snapOk : Bool
  metaOk : Bool
  xattrOk : Bool
  roTsOk : Bool
  roPlainOk : Bool

structure SnapshotRecord where
  name : String
  path : String
  readonly : Bool
  metadataPath : String
deriving DecidableEq, Repr

def create_snapshot (o : SnapOracle) (rootDataDir mainDataDir ts : String)
    (st : St) : Except Err SnapshotRecord × St :=
  let src := pyJoin rootDataDir mainDataDir
  if !(st.fs (resolveStr src)) then (.error .notFound, st) else
  if !(st.subvol (resolveStr src)) then (.error .invalidState, st) else
  let targetName := mainDataDir ++ "-snapshot-" ++ ts
  let target := pyJoin rootDataDir targetName
  if st.fs (resolveStr target) then (.error .alreadyExists, st) else
  match btrfsSnapshotStep o.snapOk src target st with
  | (.error e, st) => (.error e, st)
  | (.ok _, st) =>
  match catchCPE (writeMetaStep o.metaOk (pyJoin target ".snaplicator.json") st) with
  | (.error e, st) => (.error e, st)
  | (.ok _, st) =>
  match catchCPE (setXattrStep o.xattrOk target st) with
  | (.error e, st) => (.error e, st)
  | (.ok _, st) =>
  let record : SnapshotRecord :=
    { name := targetName, path := target, readonly := true
      metadataPath := pyJoin target ".snaplicator.json" }
  match setRoStep o.roTsOk true target st with
  | (.ok _, st) => (.ok record, st)
  | (.error .calledProcessError, st) =>
    match setRoStep o.roPlainOk false target st with
    | (.ok _, st) => (.ok record, st)
    | (.error e, st) => (.error e, st)
  | (.error e, st) => (.error e, st)

/-! ## `delete_snapshot` (claim C4)

Translated from `btrfs.py::delete_snapshot`.  Order of checks in the
source: (1) `str(target).startswith(str(root))` on the *resolved*
strings, else PermissionError; (2) `target.exists() and
target.is_dir()`, else FileNotFoundError; (3) `snapshot_name.startswith
(f"{main}-snapshot-")`, else PermissionError; (4) subvolume check, else
RuntimeError (the `findmnt`/`stat` fstype probes in that branch are
read-only and untraced); (5) `findmnt -T` mount probe: a successful
probe whose output indicates a separate mount raises RuntimeError
(`o.mountedProbe`), a failed probe is swallowed; (6) the delete itself,
whose CalledProcessError is re-raised as RuntimeError. -/

structure DelSnapOracle where
  mountedProbe : Bool
  delOk : Bool

structure DeleteSnapshotRecord where
  subvolumeDeleted : String
deriving DecidableEq, Repr

def delete_snapshot (o : DelSnapOracle) (rootDataDir mainDataDir snapshotName : String)
    (st : St) : Except Err DeleteSnapshotRecord × St :=
  let root := resolveStr rootDataDir
  let target := resolveStr (pyJoin root snapshotName)
  if !(strStartsWith target root) then (.error .permissionDenied, st) else
  if !(st.fs target) then (.error .notFound, st) else
  if !(strStartsWith snapshotName (mainDataDir ++ "-snapshot-")) then
    (.error .permissionDenied, st) else
  if !(st.subvol target) then (.error .runtimeError, st) else
  if o.mountedProbe then (.error .runtimeError, st) else
  match btrfsDeleteStep o.delOk target st with
  | (.error _, st) => (.error .runtimeError, st)
  | (.ok _, st) => (.ok { subvolumeDeleted := target }, st)

/-! ## `delete_clone` (claims C4, C6)

Translated from `docker_pg.py::delete_clone`.  Step 1 resolves the host
clone path: inspect the named container's mounts (a json decode failure
yields an empty mount list); when the container is absent
(CalledProcessError from `docker inspect`), fall back to
`ROOT_DATA_DIR/<name>` if that path exists, else FileNotFoundError.
Then the safety checks (string-startswith root check, clone-naming check
when a main volume name is configured, subvolume check), then the
removal of every container whose data mount source resolves to the
target path, then the subvolume delete.  `docker ps -aq` and per-id
inspects are taken as ground truth from the state. -/

def pgDataDest : String := "/var/lib/postgresql/data"

/-- First mount whose destination starts with the postgres data dir and
whose source is non-empty (the loop in the source breaks at the first
hit). -/
def findDataMount (mounts : List Mount) : Option String :=
  (mounts.find? (fun m => strStartsWith m.dest pgDataDest && !(m.source == ""))).map
    (fun m => m.source)

/-- The match condition of the removal loop: some data mount of the
container has a source resolving to exactly the target path. -/
def mountMatches (target : String) (m : Mount) : Bool :=
  strStartsWith m.dest pgDataDest && !(m.source == "") && resolveStr m.source == target

structure DeleteCloneRecord where
  containersRemoved : List String
  subvolumeDeleted : String
deriving DecidableEq, Repr

def delete_clone (delOk : Bool) (rootDataDir : String) (mainDataDir : Option String)
    (containerName : String) (st : St) : Except Err DeleteCloneRecord × St :=
  let hostSrcR : Except Err (Option String) :=
    match st.containers.find? (fun c => c.name == containerName) with
    | some c => .ok (if c.parseOk then findDataMount c.mounts else none)
    | none =>
      let candidate := pyJoin rootDataDir containerName
      if st.fs (resolveStr candidate) then .ok (some candidate)
      else .error .notFound
  match hostSrcR with
  | .error e => (.error e, st)
  | .ok none => (.error .runtimeError, st)
  | .ok (some hostSrc) =>
  let hostPath := resolveStr hostSrc
  let root := resolveStr rootDataDir
  if !(strStartsWith hostPath root) then (.error .permissionDenied, st) else
  let badName :=
    match mainDataDir with
    | some md => !(strStartsWith (baseName hostPath) (md ++ "-clone-"))
    | none => false
  if badName then (.error .permissionDenied, st) else
  if !(st.subvol hostPath) then (.error .runtimeError, st) else
  let removed := (st.containers.filter
    (fun c => c.parseOk && c.mounts.any (mountMatches hostPath))).map Container.name
  let st := { st with
    containers := st.containers.filter
      (fun c => !(c.parseOk && c.mounts.any (mountMatches hostPath)))
    trace := st.trace ++ removed.map Action.dockerRm }
  match btrfsDeleteStep delOk hostPath st with
  | (.error _, st) => (.error .runtimeError, st)
  | (.ok _, st) => (.ok { containersRemoved := removed, subvolumeDeleted := hostPath }, st)

/-! ## `_is_btrfs_subvolume` (claim C9)

The Python function runs `sudo btrfs subvolume show PATH` through
`_run` and returns `True` on success; the `except
subprocess.CalledProcessError` clause turns every tool failure into
`False`. -/

def is_btrfs_subvolume (showRes : CmdResult) : Except Err Bool :=
  match run_checked showRes with
  | .ok _ => .ok true
  | .error .calledProcessError => .ok false
  | .error e => .error e

/-! ## `_find_free_port` (claim C8)

`_find_free_port(start_port, attempts=1000)` scans `ss -ltn` once per
iteration; a listener on the current port advances to the next port,
otherwise the port is returned; after `attempts` busy iterations it
raises `RuntimeError`.  `busy` is the listener predicate. -/

def find_free_port (busy : Nat → Bool) (port : Nat) : Nat → Except Err Nat
  | 0 => .error .runtimeError
  | n + 1 => if busy port then find_free_port busy (port + 1) n else .ok port

/-! ## `_launch_clone_container` (claims C3, C2, C1)

Translated from `docker_pg.py::_launch_clone_container`.  Steps in
source order: (1) `_pgdata_env_for_clone_path` probes the volume for
`PG_VERSION` at two candidate relative paths (each via `sudo test -f`,
whose CalledProcessError is caught) and raises RuntimeError when
neither is present; (2) `docker rm -f NAME` when `removeExisting`
(check=False); (3) `_ensure_docker_network`, re-raising any failure as
RuntimeError; (4) the port: the hint when supplied, else
`_find_free_port(opts.host_port)`; (5) `docker run` (check=True, a
failure escapes as CalledProcessError with no teardown); (6) readiness
polling and (7) subscription disabling are best-effort (no check /
check=False) and touch no tracked state; (8) `_sync_owned_sequences`
re-raises as RuntimeError after `docker rm -f`; (9) when the
anonymize script exists, `docker cp` then `psql -f` are each retried up
to 5 times, and exhaustion tears the container down and raises
RuntimeError. -/

/-- `docker run -d --name NAME -p PORT:5432 -v VOLUME:/var/lib/postgresql/data ...`:
on success the container exists with that name, port binding and mount. -/
def dockerRunStep (cmdOk : Bool) (name : String) (port : Nat) (volume : String)
    (st : St) : Except Err Unit × St :=
  let st := emit (.dockerRun name port volume) st
  if cmdOk then
    (.ok (), { st with containers := st.containers ++
      [{ name := name
         parseOk := true
         ports5432 := some [some port]
         mounts := [{ dest := "/var/lib/postgresql/data", source := volume }] }] })
  else (.error .calledProcessError, st)

def pgdata_env_for_clone_path (pgVerRoot pgVerSub : Bool) : Except Err String :=
  if pgVerRoot then .ok "/var/lib/postgresql/data"
  else if pgVerSub then .ok "/var/lib/postgresql/data/pgdata"
  else .error .runtimeError

/-- Index of the first successful attempt among `n` retries (the
`for _ in range(n): ...; if ok: break; sleep(1)` pattern). -/
def firstSuccessFrom (ok : Nat → Bool) (i : Nat) : Nat → Option Nat
  | 0 => none
  | n + 1 => if ok i then some i else firstSuccessFrom ok (i + 1) n

def firstSuccess (ok : Nat → Bool) (n : Nat) : Option Nat := firstSuccessFrom ok 0 n

structure LaunchOracle where
  pgVerRoot : Bool
  pgVerSub : Bool
  netOk : Bool
  runOk : Bool
  busy : Nat → Bool
  syncOk : Bool
  anonExists : Bool
  copyOk : Nat → Bool
  execOk : Nat → Bool
  anonOut : String

structure LaunchResult where
  hostPort : Nat
  pgdata : String
  anonymizeRan : Bool
  anonymizeOutput : Option String
deriving DecidableEq, Repr

def launch_clone_container (o : LaunchOracle) (clonePath containerName : String)
    (hostPortHint : Option Nat) (optsHostPort : Nat) (removeExisting : Bool)
    (st : St) : Except Err LaunchResult × St :=
  match pgdata_env_for_clone_path o.pgVerRoot o.pgVerSub with
  | .error e => (.error e, st)
  | .ok containerPgdata =>
  let st := if removeExisting then dockerRmForce containerName st else st
  if !o.netOk then (.error .runtimeError, st) else
  let portR : Except Err Nat × St :=
    match hostPortHint with
    | some p => (.ok p, st)
    | none => (find_free_port o.busy optsHostPort 1000,
               emit (.allocPort optsHostPort) st)
  match portR.1 with
  | .error e => (.error e, portR.2)
  | .ok hostPort =>
  let r1 := dockerRunStep o.runOk containerName hostPort clonePath portR.2
  match r1.1 with
  | .error e => (.error e, r1.2)
  | .ok _ =>
  let st := r1.2
  if !o.syncOk then (.error .runtimeError, dockerRmForce containerName st) else
  if o.anonExists then
    match firstSuccess o.copyOk 5 with
    | none => (.error .runtimeError, dockerRmForce containerName st)
    | some _ =>
      match firstSuccess o.execOk 5 with
      | none => (.error .runtimeError, dockerRmForce containerName st)
      | some _ =>
        (.ok { hostPort := hostPort
               pgdata := containerPgdata
               anonymizeRan := true
               anonymizeOutput := some o.anonOut }, st)
  else
    (.ok { hostPort := hostPort
           pgdata := containerPgdata
           anonymizeRan := false
           anonymizeOutput := none }, st)

/-- The teardown outcome asserted by claim C3: the launch failed with
RuntimeError, the last issued command is the force-removal of the
container, no container of that name survives, and no new subvolume
delete was issued. -/
def tornDown (cname : String) (st : St) (R : Except Err LaunchResult × St) : Prop :=
  R.1 = .error .runtimeError ∧
  R.2.trace.getLast? = some (.dockerRm cname) ∧
  (∀ c ∈ R.2.containers, c.name ≠ cname) ∧
  (∀ pth, Action.btrfsDelete pth ∈ R.2.trace → Action.btrfsDelete pth ∈ st.trace)

/-! ## `refresh_clone_in_place` (claims C1, C2, C10)

Translated from `docker_pg.py::refresh_clone_in_place`.  Source order:
main-volume existence/subvolume check (FileNotFoundError); `docker
inspect` of the target (CalledProcessError → FileNotFoundError,
unparseable JSON → RuntimeError); the `5432/tcp` host-port binding
(missing/empty/unparseable → RuntimeError); the data mount
(missing → RuntimeError); description from the override or the old
metadata file (best-effort read, `o.descRead`); best-effort checkpoint
of the main volume's container (untracked); `docker rm -f` of the
target; then the guarded block: snapshot main → temp, chown, chmod,
best-effort metadata and xattr, move an existing target volume aside to
the backup path, move temp into place — with `except Exception`
performing the rollback below and re-raising; then the relaunch with
the recovered port as hint and `remove_existing=False` (a failure
propagates, deliberately keeping the backup); finally the backup volume
is deleted (best-effort) only after a successful relaunch. -/

structure RefreshOracle where
  descRead : Option String
  snapOk : Bool
  chownOk : Bool
  chmodOk : Bool
  metaOk : Bool
  xattrOk : Bool
  backupMvOk : Bool
  finalMvOk : Bool
  tempDelOk : Bool
  restoreMvOk : Bool
  backupDelOk : Bool
  launch : LaunchOracle

structure RefreshResult where
  refreshedContainer : String
  hostPort : Nat
  cloneSubvolume : String
  pgdata : String
  metadataPath : String
  description : Option String
  anonymizeRan : Bool
  anonymizeOutput : Option String
deriving DecidableEq, Repr

/-- `int(ports["5432/tcp"][0]["HostPort"])` with its guards: a falsy
binding (key absent, null, or empty list) and a missing or non-numeric
HostPort each raise RuntimeError. -/
def extractHostPort : Option (List (Option Nat)) → Except Err Nat
  | none => .error .runtimeError
  | some [] => .error .runtimeError
  | some (none :: _) => .error .runtimeError
  | some (some p :: _) => .ok p

/-- The `except Exception` handler of the guarded block: delete the
temporary volume if it exists (failure swallowed), then, when a backup
was made, still exists, and the target path is absent, move the backup
back (failure swallowed), then re-raise. -/
def refreshRollback (tempDelOk restoreMvOk : Bool) (e : Err)
    (backupPath : Option String) (hostPath tempPath : String) (st : St) :
    Except Err RefreshResult × St :=
  let st :=
    if st.fs (resolveStr tempPath) then (btrfsDeleteStep tempDelOk tempPath st).2
    else st
  let st :=
    match backupPath with
    | some bp =>
      if st.fs (resolveStr bp) && !(st.fs (resolveStr hostPath)) then
        (mvStep restoreMvOk bp hostPath st).2
      else st
    | none => st
  (.error e, st)

def refresh_clone_in_place (o : RefreshOracle) (rootDataDir mainDataDir : String)
    (targetContainer : String) (optsHostPort : Nat) (ts : String)
    (descriptionOverride : Option String) (st : St) :
    Except Err RefreshResult × St :=
  let srcMain := pyJoin rootDataDir mainDataDir
  if !(st.fs (resolveStr srcMain) && st.subvol (resolveStr srcMain)) then
    (.error .notFound, st) else
  match st.containers.find? (fun c => c.name == targetContainer) with
  | none => (.error .notFound, st)
  | some c =>
  if !c.parseOk then (.error .runtimeError, st) else
  match extractHostPort c.ports5432 with
  | .error e => (.error e, st)
  | .ok hostPort =>
  match findDataMount c.mounts with
  | none => (.error .runtimeError, st)
  | some hostPath =>
  let description :=
    match descriptionOverride with
    | some d => some d
    | none => o.descRead
  let st := dockerRmForce targetContainer st
  let tempPath := pyJoin (parentStr hostPath) (baseName hostPath ++ "-refresh-" ++ ts)
  let r1 := btrfsSnapshotStep o.snapOk srcMain tempPath st
  match r1.1 with
  | .error e => refreshRollback o.tempDelOk o.restoreMvOk e none hostPath tempPath r1.2
  | .ok _ =>
  let r2 := chownStep o.chownOk tempPath r1.2
  match r2.1 with
  | .error e => refreshRollback o.tempDelOk o.restoreMvOk e none hostPath tempPath r2.2
  | .ok _ =>
  let r3 := chmodStep o.chmodOk tempPath r2.2
  match r3.1 with
  | .error e => refreshRollback o.tempDelOk o.restoreMvOk e none hostPath tempPath r3.2
  | .ok _ =>
  let st := (catchCPE (writeMetaStep o.metaOk (pyJoin tempPath ".snaplicator.json") r3.2)).2
  let st := (catchCPE (setXattrStep o.xattrOk tempPath st)).2
  let hostExisted := st.fs (resolveStr hostPath)
  let backupPathStr := pyJoin (parentStr hostPath) (baseName hostPath ++ "-prev-" ++ ts)
  let backupPath : Option String := if hostExisted then some backupPathStr else none
  let rB := if hostExisted then mvStep o.backupMvOk hostPath backupPathStr st
            else (.ok (), st)
  match rB.1 with
  | .error e =>
      refreshRollback o.tempDelOk o.restoreMvOk e backupPath hostPath tempPath rB.2
  | .ok _ =>
  let rF := mvStep o.finalMvOk tempPath hostPath rB.2
  match rF.1 with
  | .error e =>
      refreshRollback o.tempDelOk o.restoreMvOk e backupPath hostPath tempPath rF.2
  | .ok _ =>
  let rL := launch_clone_container o.launch hostPath targetContainer (some hostPort)
      optsHostPort false rF.2
  match rL.1 with
  | .error e => (.error e, rL.2)
  | .ok lr =>
  let st := rL.2
  let st :=
    match backupPath with
    | some bp =>
      if st.fs (resolveStr bp) then (btrfsDeleteStep o.backupDelOk bp st).2 else st
    | none => st
  (.ok { refreshedContainer := targetContainer
         hostPort := lr.hostPort
         cloneSubvolume := hostPath
         pgdata := lr.pgdata
         metadataPath := pyJoin hostPath ".snaplicator.json"
         description := description
         anonymizeRan := lr.anonymizeRan
         anonymizeOutput := lr.anonymizeOutput }, st)

/-! ## `get_initial_copy_progress` (claim C7)

The summary query yields `total` tracked tables and `done` finished
ones; the function then computes the status string and the percentage
(float division in Python, modelled as exact rational division). -/

structure CopyProgress where
  status : String
  totalTables : Nat
  finishedTables : Nat
  percent : ℚ
deriving DecidableEq, Repr

def get_initial_copy_progress (total done : Nat) : CopyProgress :=
  { status := if total = 0 then "idle" else if done < total then "copying" else "complete"
    totalTables := total
    finishedTables := done
    percent := if 0 < total then (done : ℚ) / (total : ℚ) * 100 else 0 }

/-! ## Concrete evaluation environments used by the witnesses -/

/-- A small concrete world: the root, the main volume, one clone volume,
and the clone's container (port 5440), plus a stale duplicate container
mounting the same volume through an unnormalised path and an unrelated
container. -/
def stRefresh : St :=
  { fs := fun p => p == "/data" || p == "/data/main" || p == "/data/main-clone-1"
    subvol := fun p => p == "/data/main" || p == "/data/main-clone-1"
    containers := [{ name := "pg-clone"
                     parseOk := true
                     ports5432 := some [some 5440]
                     mounts := [{ dest := "/var/lib/postgresql/data"
                                  source := "/data/main-clone-1" }] }]
    trace := [] }

def cloneContainerW : Container :=
  { name := "pg-clone"
    parseOk := true
    ports5432 := some [some 5440]
    mounts := [{ dest := "/var/lib/postgresql/data"
                 source := "/data/main-clone-1" }] }

def stDelClone : St :=
  { fs := fun p => p == "/data" || p == "/data/main" || p == "/data/main-clone-1"
    subvol := fun p => p == "/data/main" || p == "/data/main-clone-1"
    containers := [{ name := "pg-clone"
                     parseOk := true
                     ports5432 := some [some 5440]
                     mounts := [{ dest := "/var/lib/postgresql/data"
                                  source := "/data/main-clone-1" }] },
                   { name := "stale"
                     parseOk := true
                     ports5432 := none
                     mounts := [{ dest := "/var/lib/postgresql/data"
                                  source := "/data/extra/../main-clone-1" }] },
                   { name := "other"
                     parseOk := true
                     ports5432 := none
                     mounts := [{ dest := "/var/lib/postgresql/data"
                                  source := "/data/other-vol" }] }]
    trace := [] }

def launchAllOk : LaunchOracle :=
  ⟨true, false, true, true, fun _ => false, true, false, fun _ => false, fun _ => false, ""⟩

def launchSyncFail : LaunchOracle :=
  ⟨true, false, true, true, fun _ => false, false, false, fun _ => false, fun _ => false, ""⟩

def refreshAllOk : RefreshOracle :=
  ⟨none, true, true, true, true, true, true, true, true, true, true, launchAllOk⟩

def refreshSnapFail : RefreshOracle :=
  ⟨none, false, true, true, true, true, true, true, true, true, true, launchAllOk⟩

def refreshRelaunchFail : RefreshOracle :=
  ⟨none, true, true, true, true, true, true, true, true, true, true, launchSyncFail⟩

def lrRefreshW : RefreshResult :=
  { refreshedContainer := "pg-clone"
    hostPort := 5440
    cloneSubvolume := "/data/main-clone-1"
    pgdata := "/var/lib/postgresql/data"
    metadataPath := "/data/main-clone-1/.snaplicator.json"
    description := none
    anonymizeRan := false
    anonymizeOutput := none }

/-! ## Helper lemmas for `find_free_port` -/

theorem find_free_port_ok (busy : Nat → Bool) :
    ∀ (k start attempts : Nat), k < attempts →
      (∀ j, j < k → busy (start + j) = true) → busy (start + k) = false →
      find_free_port busy start attempts = .ok (start + k) := by
  intro k
  induction k with
  | zero =>
    intro start attempts hk _ hfree
    match attempts, hk with
    | n + 1, _ =>
      simp only [find_free_port]
      simp only [Nat.add_zero] at hfree
      simp [hfree]
  | succ k ih =>
    intro start attempts hk hbusy hfree
    match attempts, hk with
    | n + 1, hk =>
      have h0 : busy start = true := by
        have := hbusy 0 (Nat.succ_pos k)
        simpa using this
      simp only [find_free_port, h0, if_true]
      have h1 : ∀ j, j < k → busy (start + 1 + j) = true := by
        intro j hj
        have := hbusy (j + 1) (by omega)
        have e : start + (j + 1) = start + 1 + j := by omega
        rwa [e] at this
      have h2 : busy (start + 1 + k) = false := by
        have e : start + (k + 1) = start + 1 + k := by omega
        rwa [e] at hfree
      have := ih (start + 1) n (by omega) h1 h2
      have e : start + 1 + k = start + (k + 1) := by omega
      rwa [e] at this

theorem find_free_port_exhausted (busy : Nat → Bool) :
    ∀ (attempts start : Nat),
      (∀ j, j < attempts → busy (start + j) = true) →
      find_free_port busy start attempts = .error .runtimeError := by
  intro attempts
  induction attempts with
  | zero => intro start _; rfl
  | succ n ih =>
    intro start hbusy
    have h0 : busy start = true := by simpa using hbusy 0 (Nat.succ_pos n)
    simp only [find_free_port, h0, if_true]
    apply ih
    intro j hj
    have := hbusy (j + 1) (by omega)
    have e : start + (j + 1) = start + 1 + j := by omega
    rwa [e] at this

/-! ## Component lemmas for the command steps -/

@[simp] theorem emit_fs (a : Action) (st : St) : (emit a st).fs = st.fs := rfl
@[simp] theorem emit_subvol (a : Action) (st : St) : (emit a st).subvol = st.subvol := rfl
@[simp] theorem emit_containers (a : Action) (st : St) :
    (emit a st).containers = st.containers := rfl
@[simp] theorem emit_trace (a : Action) (st : St) :
    (emit a st).trace = st.trace ++ [a] := rfl

@[simp] theorem dockerRmForce_fs (n : String) (st : St) :
    (dockerRmForce n st).fs = st.fs := rfl
@[simp] theorem dockerRmForce_subvol (n : String) (st : St) :
    (dockerRmForce n st).subvol = st.subvol := rfl
@[simp] theorem dockerRmForce_containers (n : String) (st : St) :
    (dockerRmForce n st).containers =
      st.containers.filter (fun c => !(c.name == n)) := rfl
@[simp] theorem dockerRmForce_trace (n : String) (st : St) :
    (dockerRmForce n st).trace = st.trace ++ [Action.dockerRm n] := rfl

@[simp] theorem btrfsSnapshotStep_fst (b : Bool) (src dst : String) (st : St) :
    (btrfsSnapshotStep b src dst st).1 =
      if b then .ok () else .error .calledProcessError := by
  cases b <;> simp [btrfsSnapshotStep, emit]
@[simp] theorem btrfsSnapshotStep_fs (b : Bool) (src dst : String) (st : St) :
    (btrfsSnapshotStep b src dst st).2.fs =
      if b then upd st.fs (resolveStr dst) true else st.fs := by
  cases b <;> simp [btrfsSnapshotStep, emit]
@[simp] theorem btrfsSnapshotStep_subvol (b : Bool) (src dst : String) (st : St) :
    (btrfsSnapshotStep b src dst st).2.subvol =
      if b then upd st.subvol (resolveStr dst) true else st.subvol := by
  cases b <;> simp [btrfsSnapshotStep, emit]
@[simp] theorem btrfsSnapshotStep_containers (b : Bool) (src dst : String) (st : St) :
    (btrfsSnapshotStep b src dst st).2.containers = st.containers := by
  cases b <;> simp [btrfsSnapshotStep, emit]
@[simp] theorem btrfsSnapshotStep_trace (b : Bool) (src dst : String) (st : St) :
    (btrfsSnapshotStep b src dst st).2.trace =
      st.trace ++ [Action.btrfsSnapshot src dst] := by
  cases b <;> simp [btrfsSnapshotStep, emit]

@[simp] theorem btrfsDeleteStep_fst (b : Bool) (p : String) (st : St) :
    (btrfsDeleteStep b p st).1 = if b then .ok () else .error .calledProcessError := by
  cases b <;> simp [btrfsDeleteStep, emit]
@[simp] theorem btrfsDeleteStep_fs (b : Bool) (p : String) (st : St) :
    (btrfsDeleteStep b p st).2.fs =
      if b then upd st.fs (resolveStr p) false else st.fs := by
  cases b <;> simp [btrfsDeleteStep, emit]
@[simp] theorem btrfsDeleteStep_subvol (b : Bool) (p : String) (st : St) :
    (btrfsDeleteStep b p st).2.subvol =
      if b then upd st.subvol (resolveStr p) false else st.subvol := by
  cases b <;> simp [btrfsDeleteStep, emit]
@[simp] theorem btrfsDeleteStep_containers (b : Bool) (p : String) (st : St) :
    (btrfsDeleteStep b p st).2.containers = st.containers := by
  cases b <;> simp [btrfsDeleteStep, emit]
@[simp] theorem btrfsDeleteStep_trace (b : Bool) (p : String) (st : St) :
    (btrfsDeleteStep b p st).2.trace = st.trace ++ [Action.btrfsDelete p] := by
  cases b <;> simp [btrfsDeleteStep, emit]

@[simp] theorem mvStep_fst (b : Bool) (src dst : String) (st : St) :
    (mvStep b src dst st).1 = if b then .ok () else .error .calledProcessError := by
  cases b <;> simp [mvStep, emit]
@[simp] theorem mvStep_fs (b : Bool) (src dst : String) (st : St) :
    (mvStep b src dst st).2.fs =
      if b then upd (upd st.fs (resolveStr src) false) (resolveStr dst)
        (st.fs (resolveStr src)) else st.fs := by
  cases b <;> simp [mvStep, emit]
@[simp] theorem mvStep_subvol (b : Bool) (src dst : String) (st : St) :
    (mvStep b src dst st).2.subvol =
      if b then upd (upd st.subvol (resolveStr src) false) (resolveStr dst)
        (st.subvol (resolveStr src)) else st.subvol := by
  cases b <;> simp [mvStep, emit]
@[simp] theorem mvStep_containers (b : Bool) (src dst : String) (st : St) :
    (mvStep b src dst st).2.containers = st.containers := by
  cases b <;> simp [mvStep, emit]
@[simp] theorem mvStep_trace (b : Bool) (src dst : String) (st : St) :
    (mvStep b src dst st).2.trace = st.trace ++ [Action.mvCmd src dst] := by
  cases b <;> simp [mvStep, emit]

@[simp] theorem chownStep_fst (b : Bool) (p : String) (st : St) :
    (chownStep b p st).1 = if b then .ok () else .error .calledProcessError := by
  cases b <;> simp [chownStep, emit]
@[simp] theorem chownStep_snd (b : Bool) (p : String) (st : St) :
    (chownStep b p st).2 = emit (.chownCmd p) st := by
  cases b <;> simp [chownStep]
@[simp] theorem chmodStep_fst (b : Bool) (p : String) (st : St) :
    (chmodStep b p st).1 = if b then .ok () else .error .calledProcessError := by
  cases b <;> simp [chmodStep, emit]
@[simp] theorem chmodStep_snd (b : Bool) (p : String) (st : St) :
    (chmodStep b p st).2 = emit (.chmodCmd p) st := by
  cases b <;> simp [chmodStep]
@[simp] theorem writeMetaStep_snd (b : Bool) (p : String) (st : St) :
    (writeMetaStep b p st).2 = emit (.writeMeta p) st := by
  cases b <;> simp [writeMetaStep]
@[simp] theorem setXattrStep_snd (b : Bool) (p : String) (st : St) :
    (setXattrStep b p st).2 = emit (.setXattr p) st := by
  cases b <;> simp [setXattrStep]
@[simp] theorem setRoStep_snd (b tf : Bool) (p : String) (st : St) :
    (setRoStep b tf p st).2 = emit (.setRo p tf) st := by
  cases b <;> simp [setRoStep]

@[simp] theorem catchCPE_snd (r : Except Err Unit × St) : (catchCPE r).2 = r.2 := by
  rcases r with ⟨e | a, st⟩
  · cases e <;> rfl
  · rfl

@[simp] theorem dockerRunStep_fst (b : Bool) (n : String) (p : Nat) (v : String) (st : St) :
    (dockerRunStep b n p v st).1 =
      if b then .ok () else .error .calledProcessError := by
  cases b <;> simp [dockerRunStep, emit]
@[simp] theorem dockerRunStep_fs (b : Bool) (n : String) (p : Nat) (v : String) (st : St) :
    (dockerRunStep b n p v st).2.fs = st.fs := by
  cases b <;> simp [dockerRunStep, emit]
@[simp] theorem dockerRunStep_subvol (b : Bool) (n : String) (p : Nat) (v : String) (st : St) :
    (dockerRunStep b n p v st).2.subvol = st.subvol := by
  cases b <;> simp [dockerRunStep, emit]
@[simp] theorem dockerRunStep_containers (b : Bool) (n : String) (p : Nat) (v : String)
    (st : St) :
    (dockerRunStep b n p v st).2.containers =
      if b then st.containers ++
        [{ name := n, parseOk := true, ports5432 := some [some p]
           mounts := [{ dest := "/var/lib/postgresql/data", source := v }] }]
      else st.containers := by
  cases b <;> simp [dockerRunStep, emit]
@[simp] theorem dockerRunStep_trace (b : Bool) (n : String) (p : Nat) (v : String) (st : St) :
    (dockerRunStep b n p v st).2.trace = st.trace ++ [Action.dockerRun n p v] := by
  cases b <;> simp [dockerRunStep, emit]

theorem firstSuccessFrom_none (ok : Nat → Bool) :
    ∀ (n i : Nat), (∀ j, j < n → ok (i + j) = false) → firstSuccessFrom ok i n = none := by
  intro n
  induction n with
  | zero => intro i _; rfl
  | succ m ih =>
    intro i h
    have h0 : ok i = false := by simpa using h 0 (Nat.succ_pos m)
    simp only [firstSuccessFrom, h0, Bool.false_eq_true, if_false]
    apply ih
    intro j hj
    have := h (j + 1) (by omega)
    rwa [show i + (j + 1) = i + 1 + j by omega] at this

theorem firstSuccess_none (ok : Nat → Bool) (n : Nat)
    (h : ∀ j, j < n → ok j = false) : firstSuccess ok n = none :=
  firstSuccessFrom_none ok n 0 (by simpa using h)

/-- Whatever the outcome, a container launch never touches the
filesystem state and never issues a subvolume delete. -/
theorem launch_st2 (o : LaunchOracle) (cp cn : String) (hint : Option Nat)
    (sp : Nat) (re : Bool) (st : St) (res : Except Err LaunchResult) (st2 : St)
    (h : launch_clone_container o cp cn hint sp re st = (res, st2)) :
    st2.fs = st.fs ∧ st2.subvol = st.subvol ∧
    (∀ pth, Action.btrfsDelete pth ∈ st2.trace → Action.btrfsDelete pth ∈ st.trace) := by
  cases re <;>
  · simp only [launch_clone_container] at h
    repeat' split at h
    all_goals
      (injection h with h1 h2; subst h2
       refine ⟨by simp, by simp, ?_⟩
       intro pth hm
       try simp at hm
       try simp
       try tauto
       try exact hm)

/-- A launch with a port hint that returns successfully reuses exactly
the hinted port and (re-)creates the container under the requested name
with that port binding; it allocates no port. -/
theorem launch_hint_ok (o : LaunchOracle) (cp cn : String) (p sp : Nat) (re : Bool)
    (st : St) (lr : LaunchResult) (st2 : St)
    (h : launch_clone_container o cp cn (some p) sp re st = (.ok lr, st2)) :
    lr.hostPort = p ∧
    ({ name := cn, parseOk := true, ports5432 := some [some p]
       mounts := [{ dest := "/var/lib/postgresql/data", source := cp }] } : Container) ∈
      st2.containers ∧
    (∀ q, Action.allocPort q ∈ st2.trace → Action.allocPort q ∈ st.trace) := by
  cases re <;>
  · simp only [launch_clone_container] at h
    repeat' split at h
    all_goals simp_all
    all_goals
      (obtain ⟨h1, h2⟩ := h; subst h2
       refine ⟨by simp [← h1], by simp, ?_⟩
       intro q hm
       simp at hm ⊢
       try tauto)

theorem pgdata_env_ok (b1 b2 : Bool) (h : (b1 || b2) = true) :
    ∃ s, pgdata_env_for_clone_path b1 b2 = .ok s := by
  cases b1 <;> cases b2 <;> simp_all [pgdata_env_for_clone_path]

/-- A state of the shape `(.error .runtimeError, dockerRmForce cn stX)`
satisfies the teardown specification whenever `stX` issued no new
subvolume delete. -/
theorem tornDown_teardown (cn : String) (st stX : St)
    (htrace : ∀ pth, Action.btrfsDelete pth ∈ stX.trace →
       Action.btrfsDelete pth ∈ st.trace) :
    tornDown cn st (.error .runtimeError, dockerRmForce cn stX) := by
  refine ⟨rfl, ?_, ?_, ?_⟩
  · simp [List.getLast?_concat]
  · intro c hc
    simp [List.mem_filter] at hc
    exact hc.2
  · intro pth hm
    simp at hm
    exact htrace pth hm

/-! ## Claim theorems C7, C8, C9 -/

/-- C7: for every pair of counts with `done ≤ total`,
`get_initial_copy_progress` reports `"idle"` exactly when `total = 0`,
`"copying"` exactly when `0 < total` and `done < total`, `"complete"`
exactly when `0 < total` and `done = total`, and
`percent = done / total * 100` when `0 < total`, `0` otherwise; in
particular `(0,0) ↦ ("idle", 0)`, `(3,1) ↦ ("copying", 100/3)`,
`(3,3) ↦ ("complete", 100)`. -/
theorem copyProgress_spec (total done : Nat) (h : done ≤ total) :
    ((get_initial_copy_progress total done).status = "idle" ↔ total = 0) ∧
    ((get_initial_copy_progress total done).status = "copying" ↔ 0 < total ∧ done < total) ∧
    ((get_initial_copy_progress total done).status = "complete" ↔ 0 < total ∧ done = total) ∧
    (0 < total → (get_initial_copy_progress total done).percent = (done : ℚ) / (total : ℚ) * 100) ∧
    (total = 0 → (get_initial_copy_progress total done).percent = 0) ∧
    (get_initial_copy_progress total done).totalTables = total ∧
    (get_initial_copy_progress total done).finishedTables = done ∧
    (get_initial_copy_progress 0 0).status = "idle" ∧
    (get_initial_copy_progress 0 0).percent = 0 ∧
    (get_initial_copy_progress 3 1).status = "copying" ∧
    (get_initial_copy_progress 3 1).percent = 100 / 3 ∧
    (get_initial_copy_progress 3 3).status = "complete" ∧
    (get_initial_copy_progress 3 3).percent = 100 := by
  refine ⟨?_, ?_, ?_, ?_, ?_, rfl, rfl, by decide, ?_, by decide, ?_, by decide, ?_⟩
  · simp only [get_initial_copy_progress]
    split_ifs with h1 h2 <;> simp_all
  · simp only [get_initial_copy_progress]
    split_ifs with h1 h2
    · simp_all
    · simp_all; omega
    · constructor
      · intro hc; exact absurd hc (by decide)
      · intro ⟨_, hlt⟩; omega
  · simp only [get_initial_copy_progress]
    split_ifs with h1 h2
    · simp_all
    · constructor
      · intro hc; exact absurd hc (by decide)
      · intro ⟨_, he⟩; omega
    · simp_all; omega
  · intro ht
    simp only [get_initial_copy_progress, if_pos ht]
  · intro ht
    simp only [get_initial_copy_progress]
    rw [if_neg (by omega)]
  · norm_num [get_initial_copy_progress]
  · norm_num [get_initial_copy_progress]
  · norm_num [get_initial_copy_progress]

theorem copyProgress_spec_witness :
    (get_initial_copy_progress 3 1).status = "copying" ∧
    (get_initial_copy_progress 3 1).percent = 100 / 3 := by
  have h := copyProgress_spec 3 1 (by norm_num)
  exact ⟨h.2.1.mpr (by norm_num), h.2.2.2.2.2.2.2.2.2.2.1⟩

/-- C8: `_find_free_port` returns the smallest port ≥ `start` with no
listener bound (linear probing), raises `RuntimeError` after `attempts`
consecutive busy ports, and with 5432 and 5433 occupied returns 5434. -/
theorem findFreePort_spec (busy : Nat → Bool) (start k attempts : Nat)
    (hk : k < attempts) (hfree : busy (start + k) = false)
    (hbusy : ∀ j, j < k → busy (start + j) = true) :
    find_free_port busy start attempts = .ok (start + k) ∧
    (∀ (b2 : Nat → Bool) (s2 a2 : Nat),
       (∀ j, j < a2 → b2 (s2 + j) = true) →
       find_free_port b2 s2 a2 = .error .runtimeError) ∧
    find_free_port (fun p => p == 5432 || p == 5433) 5432 1000 = .ok 5434 := by
  refine ⟨find_free_port_ok busy k start attempts hk hbusy hfree, ?_, by decide⟩
  intro b2 s2 a2 hb
  exact find_free_port_exhausted b2 a2 s2 hb

theorem findFreePort_spec_witness :
    find_free_port (fun p => p == 5432 || p == 5433) 5432 1000 = .ok 5434 := by
  have h := findFreePort_spec (fun p => p == 5432 || p == 5433) 5432 2 1000
    (by norm_num) (by decide) (by decide)
  simpa using h.1

/-- C9: `_is_btrfs_subvolume` never raises: for every outcome of the
`btrfs subvolume show` probe it returns a Boolean, which is `true`
exactly when the tool exited successfully (recognised the path as a
subvolume) and `false` on any tool failure. -/
theorem isBtrfsSubvolume_total (r : CmdResult) :
    is_btrfs_subvolume r = .ok r.succeeded ∧
    (is_btrfs_subvolume r = .ok true ↔ ∃ out, r = .ok out) := by
  cases r <;> simp [is_btrfs_subvolume, run_checked, CmdResult.succeeded]

/-- C5: `create_snapshot` fails NotFound when the main volume path is
absent, InvalidState when it is not a subvolume, AlreadyExists when the
derived target name already exists (each with no mutation); on success
(snapshot command succeeds and at least one read-only syntax works) it
returns a record with `readonly = true` irrespective of the best-effort
metadata and xattr outcomes, and when the first read-only syntax fails
the fallback syntax is attempted. -/
theorem createSnapshot_spec (o : SnapOracle) (root main ts : String) (st : St) :
    (st.fs (resolveStr (pyJoin root main)) = false →
       create_snapshot o root main ts st = (.error .notFound, st)) ∧
    (st.fs (resolveStr (pyJoin root main)) = true →
     st.subvol (resolveStr (pyJoin root main)) = false →
       create_snapshot o root main ts st = (.error .invalidState, st)) ∧
    (st.fs (resolveStr (pyJoin root main)) = true →
     st.subvol (resolveStr (pyJoin root main)) = true →
     st.fs (resolveStr (pyJoin root (main ++ "-snapshot-" ++ ts))) = true →
       create_snapshot o root main ts st = (.error .alreadyExists, st)) ∧
    (st.fs (resolveStr (pyJoin root main)) = true →
     st.subvol (resolveStr (pyJoin root main)) = true →
     st.fs (resolveStr (pyJoin root (main ++ "-snapshot-" ++ ts))) = false →
     o.snapOk = true → (o.roTsOk || o.roPlainOk) = true →
       (create_snapshot o root main ts st).1 =
         .ok { name := main ++ "-snapshot-" ++ ts
               path := pyJoin root (main ++ "-snapshot-" ++ ts)
               readonly := true
               metadataPath :=
                 pyJoin (pyJoin root (main ++ "-snapshot-" ++ ts)) ".snaplicator.json" } ∧
       (o.roTsOk = false →
          Action.setRo (pyJoin root (main ++ "-snapshot-" ++ ts)) true ∈
            (create_snapshot o root main ts st).2.trace ∧
          Action.setRo (pyJoin root (main ++ "-snapshot-" ++ ts)) false ∈
            (create_snapshot o root main ts st).2.trace)) := by
  refine ⟨?_, ?_, ?_, ?_⟩
  · intro h
    simp [create_snapshot, h]
  · intro h1 h2
    simp [create_snapshot, h1, h2]
  · intro h1 h2 h3
    simp [create_snapshot, h1, h2, h3]
  · intro h1 h2 h3 hsnap hro
    refine ⟨?_, ?_⟩
    · cases hts : o.roTsOk with
      | true =>
        cases hm : o.metaOk <;> cases hx : o.xattrOk <;>
          simp [create_snapshot, h1, h2, h3, hsnap, hts, hm, hx, btrfsSnapshotStep,
            writeMetaStep, setXattrStep, setRoStep, catchCPE, emit]
      | false =>
        have hpl : o.roPlainOk = true := by simpa [hts] using hro
        cases hm : o.metaOk <;> cases hx : o.xattrOk <;>
          simp [create_snapshot, h1, h2, h3, hsnap, hts, hpl, hm, hx, btrfsSnapshotStep,
            writeMetaStep, setXattrStep, setRoStep, catchCPE, emit]
    · intro hts
      have hpl : o.roPlainOk = true := by simpa [hts] using hro
      cases hm : o.metaOk <;> cases hx : o.xattrOk <;>
        simp [create_snapshot, h1, h2, h3, hsnap, hts, hpl, hm, hx, btrfsSnapshotStep,
          writeMetaStep, setXattrStep, setRoStep, catchCPE, emit]

theorem createSnapshot_spec_witness :
    (create_snapshot ⟨true, false, true, false, true⟩ "/data" "main" "20250101-000000"
        { fs := fun p => p == "/data" || p == "/data/main"
          subvol := fun p => p == "/data/main"
          containers := []
          trace := [] }).1 =
      .ok { name := "main" ++ "-snapshot-" ++ "20250101-000000"
            path := pyJoin "/data" ("main" ++ "-snapshot-" ++ "20250101-000000")
            readonly := true
            metadataPath :=
              pyJoin (pyJoin "/data" ("main" ++ "-snapshot-" ++ "20250101-000000"))
                ".snaplicator.json" } :=
  ((createSnapshot_spec ⟨true, false, true, false, true⟩ "/data" "main" "20250101-000000"
      { fs := fun p => p == "/data" || p == "/data/main"
        subvol := fun p => p == "/data/main"
        containers := []
        trace := [] }).2.2.2 (by decide) (by decide) (by decide) rfl rfl).1

/-- C4 (code-bug evidence): the root-containment check of the delete
operations is `str(target).startswith(str(root))` — a plain string
test with no trailing separator.  The snapshot name
`main-snapshot-../../../data-evil` resolves to `/data-evil`, a path
outside the root `/data` (not the root itself and not under `/data/`),
yet it passes both the containment check (string prefix) and the
naming-convention check (the raw name does start with
`main-snapshot-`), so `delete_snapshot` deletes a subvolume outside the
configured root instead of failing PermissionDenied with no mutation. -/
theorem deleteSnapshot_escapes_root :
    resolveStr (pyJoin (resolveStr "/data") "main-snapshot-../../../data-evil") =
      "/data-evil" ∧
    strStartsWith "/data-evil" "/data/" = false ∧
    "/data-evil" ≠ "/data" ∧
    strStartsWith "main-snapshot-../../../data-evil" ("main" ++ "-snapshot-") = true ∧
    (delete_snapshot ⟨false, true⟩ "/data" "main" "main-snapshot-../../../data-evil"
        { fs := fun p => p == "/data" || p == "/data/main" || p == "/data-evil"
          subvol := fun p => p == "/data/main" || p == "/data-evil"
          containers := []
          trace := [] }).1 = .ok { subvolumeDeleted := "/data-evil" } ∧
    Action.btrfsDelete "/data-evil" ∈
      (delete_snapshot ⟨false, true⟩ "/data" "main" "main-snapshot-../../../data-evil"
        { fs := fun p => p == "/data" || p == "/data/main" || p == "/data-evil"
          subvol := fun p => p == "/data/main" || p == "/data-evil"
          containers := []
          trace := [] }).2.trace := by
  decide

/-- C6: `delete_clone` on a name for which no container exists and no
directory of that name exists under root fails NotFound (no mutation);
and every successful invocation removes exactly the containers whose
data mount source resolves to the deleted path (not only the named
one), deletes that subvolume, and returns those container names and the
path. -/
theorem deleteClone_spec (delOk : Bool) (root : String) (main : Option String)
    (cname : String) (st : St) :
    (st.containers.find? (fun c => c.name == cname) = none →
     st.fs (resolveStr (pyJoin root cname)) = false →
       delete_clone delOk root main cname st = (.error .notFound, st)) ∧
    (∀ r, (delete_clone delOk root main cname st).1 = .ok r →
       r.containersRemoved = (st.containers.filter
           (fun c => c.parseOk && c.mounts.any (mountMatches r.subvolumeDeleted))).map
             Container.name ∧
       (delete_clone delOk root main cname st).2.containers = st.containers.filter
           (fun c => !(c.parseOk && c.mounts.any (mountMatches r.subvolumeDeleted))) ∧
       Action.btrfsDelete r.subvolumeDeleted ∈
         (delete_clone delOk root main cname st).2.trace) := by
  constructor
  · intro h1 h2
    simp [delete_clone, h1, h2]
  · intro r h
    rcases hEq : delete_clone delOk root main cname st with ⟨res, st2⟩
    rw [hEq] at h
    simp only at h
    subst h
    cases delOk with
    | false =>
      simp only [delete_clone] at hEq
      split at hEq
      · simp at hEq
      · simp at hEq
      · split at hEq
        · simp at hEq
        · split at hEq
          · simp at hEq
          · split at hEq
            · simp at hEq
            · simp [btrfsDeleteStep, emit] at hEq
    | true =>
      simp only [delete_clone] at hEq
      split at hEq
      · simp at hEq
      · simp at hEq
      · split at hEq
        · simp at hEq
        · split at hEq
          · simp at hEq
          · split at hEq
            · simp at hEq
            · simp only [btrfsDeleteStep, emit, if_true] at hEq
              rw [Prod.mk.injEq] at hEq
              obtain ⟨hr, hst⟩ := hEq
              rw [Except.ok.injEq] at hr
              subst hr
              subst hst
              refine ⟨rfl, rfl, ?_⟩
              simp

/-- C10: whenever the pre-refresh inspection of the target container
fails — the container is absent, its inspect output is unparseable, it
exposes no 5432/tcp host-port binding, or it has no mount under the
data directory — `refresh_clone_in_place` raises before performing any
mutation: the result is an error and the world state (volumes,
containers, issued commands) is exactly the initial one. -/
theorem refreshInspect_spec (o : RefreshOracle) (root main target : String)
    (optsHostPort : Nat) (ts : String) (dsc : Option String) (st : St)
    (hsrc : st.fs (resolveStr (pyJoin root main)) = true)
    (hsv : st.subvol (resolveStr (pyJoin root main)) = true)
    (hbad : st.containers.find? (fun c => c.name == target) = none ∨
      (∃ c, st.containers.find? (fun c2 => c2.name == target) = some c ∧
        (c.parseOk = false ∨
         (∀ q, extractHostPort c.ports5432 ≠ .ok q) ∨
         (c.parseOk = true ∧ findDataMount c.mounts = none)))) :
    ∃ e, refresh_clone_in_place o root main target optsHostPort ts dsc st =
      (.error e, st) := by
  rcases hbad with hnone | ⟨c, hc, hbad2⟩
  · refine ⟨.notFound, ?_⟩
    simp [refresh_clone_in_place, hsrc, hsv, hnone]
  · rcases hbad2 with hparse | hport | ⟨hparse, hmount⟩
    · refine ⟨.runtimeError, ?_⟩
      simp [refresh_clone_in_place, hsrc, hsv, hc, hparse]
    · cases hp : c.parseOk with
      | false =>
        refine ⟨.runtimeError, ?_⟩
        simp [refresh_clone_in_place, hsrc, hsv, hc, hp]
      | true =>
        rcases hE : extractHostPort c.ports5432 with e | q
        · refine ⟨e, ?_⟩
          simp [refresh_clone_in_place, hsrc, hsv, hc, hp, hE]
        · exact absurd hE (hport q)
    · rcases hE : extractHostPort c.ports5432 with e | q
      · refine ⟨e, ?_⟩
        simp [refresh_clone_in_place, hsrc, hsv, hc, hparse, hE]
      · refine ⟨.runtimeError, ?_⟩
        simp [refresh_clone_in_place, hsrc, hsv, hc, hparse, hE, hmount]

theorem refreshInspect_spec_witness :
    ∃ e, refresh_clone_in_place
      ⟨none, true, true, true, true, true, true, true, true, true, true,
        ⟨true, false, true, true, fun _ => false, true, false,
         fun _ => false, fun _ => false, ""⟩⟩
      "/data" "main" "pg-clone" 5432 "20250101-000000" none
      { fs := fun p => p == "/data" || p == "/data/main" || p == "/data/main-clone-1"
        subvol := fun p => p == "/data/main" || p == "/data/main-clone-1"
        containers := [{ name := "pg-clone"
                         parseOk := true
                         ports5432 := none
                         mounts := [{ dest := "/var/lib/postgresql/data"
                                      source := "/data/main-clone-1" }] }]
        trace := [] } =
    (.error e,
      { fs := fun p => p == "/data" || p == "/data/main" || p == "/data/main-clone-1"
        subvol := fun p => p == "/data/main" || p == "/data/main-clone-1"
        containers := [{ name := "pg-clone"
                         parseOk := true
                         ports5432 := none
                         mounts := [{ dest := "/var/lib/postgresql/data"
                                      source := "/data/main-clone-1" }] }]
        trace := [] }) :=
  refreshInspect_spec _ "/data" "main" "pg-clone" 5432 "20250101-000000" none _
    (by decide) (by decide)
    (Or.inr ⟨{ name := "pg-clone"
               parseOk := true
               ports5432 := none
               mounts := [{ dest := "/var/lib/postgresql/data"
                            source := "/data/main-clone-1" }] },
      by decide, Or.inr (Or.inl (fun q h => by simp [extractHostPort] at h))⟩)

/-- C3: for every clone launch, if the sequence resynchronization step
fails, or if the configured anonymization script cannot be copied into
the container or cannot be executed successfully after 5 attempts each,
the just-created container is force-removed before the error
propagates, and the underlying data volume is not deleted. -/
theorem launchTeardown_spec (o : LaunchOracle) (cp cn : String)
    (hint : Option Nat) (sp p : Nat) (re : Bool) (st : St)
    (hpg : (o.pgVerRoot || o.pgVerSub) = true)
    (hnet : o.netOk = true) (hrun : o.runOk = true)
    (hport : hint = some p ∨ (hint = none ∧ find_free_port o.busy sp 1000 = .ok p)) :
    (o.syncOk = false →
       tornDown cn st (launch_clone_container o cp cn hint sp re st)) ∧
    (o.syncOk = true → o.anonExists = true → (∀ i, i < 5 → o.copyOk i = false) →
       tornDown cn st (launch_clone_container o cp cn hint sp re st)) ∧
    (o.syncOk = true → o.anonExists = true → (∀ i, i < 5 → o.execOk i = false) →
       tornDown cn st (launch_clone_container o cp cn hint sp re st)) := by
  obtain ⟨pgs, hpgd⟩ := pgdata_env_ok o.pgVerRoot o.pgVerSub hpg
  refine ⟨?_, ?_, ?_⟩
  · intro hsy
    rcases hport with hp | ⟨hp, hfp⟩
    · subst hp
      cases re <;>
        (simp [launch_clone_container, hpgd, hnet,
           hrun, hsy]
         exact tornDown_teardown cn st _ (by intro pth hm; try simp at hm; tauto))
    · subst hp
      cases re <;>
        (simp [launch_clone_container, hpgd, hnet,
           hrun, hsy, hfp]
         exact tornDown_teardown cn st _ (by intro pth hm; try simp at hm; tauto))
  · intro hsy han hcf
    have hcopy : firstSuccess o.copyOk 5 = none := firstSuccess_none o.copyOk 5 hcf
    rcases hport with hp | ⟨hp, hfp⟩
    · subst hp
      cases re <;>
        (simp [launch_clone_container, hpgd, hnet,
           hrun, hsy, han, hcopy]
         exact tornDown_teardown cn st _ (by intro pth hm; try simp at hm; tauto))
    · subst hp
      cases re <;>
        (simp [launch_clone_container, hpgd, hnet,
           hrun, hsy, han, hcopy, hfp]
         exact tornDown_teardown cn st _ (by intro pth hm; try simp at hm; tauto))
  · intro hsy han hef
    have hexec : firstSuccess o.execOk 5 = none := firstSuccess_none o.execOk 5 hef
    rcases hco : firstSuccess o.copyOk 5 with _ | k
    · rcases hport with hp | ⟨hp, hfp⟩
      · subst hp
        cases re <;>
          (simp [launch_clone_container, hpgd, hnet,
             hrun, hsy, han, hco]
           exact tornDown_teardown cn st _ (by intro pth hm; try simp at hm; tauto))
      · subst hp
        cases re <;>
          (simp [launch_clone_container, hpgd, hnet,
             hrun, hsy, han, hco, hfp]
           exact tornDown_teardown cn st _ (by intro pth hm; try simp at hm; tauto))
    · rcases hport with hp | ⟨hp, hfp⟩
      · subst hp
        cases re <;>
          (simp [launch_clone_container, hpgd, hnet,
             hrun, hsy, han, hco, hexec]
           exact tornDown_teardown cn st _ (by intro pth hm; try simp at hm; tauto))
      · subst hp
        cases re <;>
          (simp [launch_clone_container, hpgd, hnet,
             hrun, hsy, han, hco, hexec, hfp]
           exact tornDown_teardown cn st _ (by intro pth hm; try simp at hm; tauto))

theorem launchTeardown_spec_witness :
    tornDown "c1"
      { fs := fun p => p == "/data/main-clone-1"
        subvol := fun p => p == "/data/main-clone-1"
        containers := []
        trace := [] }
      (launch_clone_container
        ⟨true, false, true, true, fun _ => false, false, false,
         fun _ => false, fun _ => false, ""⟩
        "/data/main-clone-1" "c1" (some 5440) 5432 false
        { fs := fun p => p == "/data/main-clone-1"
          subvol := fun p => p == "/data/main-clone-1"
          containers := []
          trace := [] }) :=
  (launchTeardown_spec
      ⟨true, false, true, true, fun _ => false, false, false,
       fun _ => false, fun _ => false, ""⟩
      "/data/main-clone-1" "c1" (some 5440) 5440 5440 false _
      rfl rfl rfl (Or.inl rfl)).1 rfl

theorem deleteClone_spec_witness :
    (delete_clone true "/data" (some "main") "pg-clone" stDelClone).1 =
      .ok { containersRemoved := ["pg-clone", "stale"]
            subvolumeDeleted := "/data/main-clone-1" } ∧
    ["pg-clone", "stale"] = (stDelClone.containers.filter
        (fun c => c.parseOk && c.mounts.any (mountMatches "/data/main-clone-1"))).map
          Container.name ∧
    Action.btrfsDelete "/data/main-clone-1" ∈
      (delete_clone true "/data" (some "main") "pg-clone" stDelClone).2.trace := by
  have h := (deleteClone_spec true "/data" (some "main") "pg-clone" stDelClone).2
    { containersRemoved := ["pg-clone", "stale"]
      subvolumeDeleted := "/data/main-clone-1" } (by decide)
  exact ⟨by decide, h.1, h.2.2⟩

theorem pair_eta_ok {α β ε : Type} (p : Except ε α × β) (a : α) (h : p.1 = .ok a) :
    p = (.ok a, p.2) := by
  rw [← h]

theorem pair_eta_err {α β ε : Type} (p : Except ε α × β) (e : ε) (h : p.1 = .error e) :
    p = (.error e, p.2) := by
  rw [← h]

/-- C2: every successful refresh keeps the clone's external identity:
the result reports the original container name and the host port
recovered from the pre-refresh inspection, no port allocation is
issued (the inspected port is reused as the hint), and the recreated
container carries the original name and that port binding. -/
theorem refreshIdentity_spec (o : RefreshOracle) (root main target : String)
    (optsHostPort : Nat) (ts : String) (dsc : Option String) (st : St)
    (c : Container) (P : Nat) (hostPath : String)
    (hc : st.containers.find? (fun c2 => c2.name == target) = some c)
    (hport : extractHostPort c.ports5432 = .ok P)
    (hmount : findDataMount c.mounts = some hostPath) :
    ∀ lr, (refresh_clone_in_place o root main target optsHostPort ts dsc st).1 = .ok lr →
      lr.refreshedContainer = target ∧
      lr.hostPort = P ∧
      lr.cloneSubvolume = hostPath ∧
      (∀ q, Action.allocPort q ∈
          (refresh_clone_in_place o root main target optsHostPort ts dsc st).2.trace →
        Action.allocPort q ∈ st.trace) ∧
      (∃ c2, c2 ∈ (refresh_clone_in_place o root main target optsHostPort ts dsc st).2.containers ∧
        c2.name = target ∧ c2.ports5432 = some [some P]) := by
  intro lr h
  rcases hEq : refresh_clone_in_place o root main target optsHostPort ts dsc st with ⟨res, st2⟩
  rw [hEq] at h
  simp only at h
  subst h
  simp only [refresh_clone_in_place, hc, hport, hmount] at hEq
  repeat' split at hEq
  all_goals try (exfalso; have hF := congrArg Prod.fst hEq; simp [refreshRollback] at hF; done)
  all_goals (
    rw [Prod.mk.injEq] at hEq
    obtain ⟨hr, hst⟩ := hEq
    rw [Except.ok.injEq] at hr
    subst hr
    subst hst
    rename (launch_clone_container _ _ _ _ _ _ _).1 = Except.ok _ => heqL
    try simp only [*] at heqL
    have hL := pair_eta_ok _ _ heqL
    obtain ⟨hP, hmemC, halloc⟩ := launch_hint_ok _ _ _ _ _ _ _ _ _ hL
    refine ⟨rfl, by simpa using hP, rfl, ?_, ?_⟩
    · intro q hq
      try simp only [btrfsDeleteStep_trace, List.mem_append, List.mem_singleton] at hq
      first
        | have h2 := halloc q (hq.resolve_right (by simp))
        | have h2 := halloc q hq
      revert h2
      repeat' split
      all_goals (intro h2; try simp at h2; tauto)
    · exact ⟨{ name := target, parseOk := true, ports5432 := some [some P]
               mounts := [{ dest := "/var/lib/postgresql/data", source := hostPath }] },
             by simpa using hmemC, rfl, rfl⟩)

theorem refreshIdentity_spec_witness :
    (refresh_clone_in_place refreshAllOk "/data" "main" "pg-clone" 5432 "20250101-000000"
        none stRefresh).1 = .ok lrRefreshW ∧
    lrRefreshW.refreshedContainer = "pg-clone" ∧
    lrRefreshW.hostPort = 5440 ∧
    (∀ q, Action.allocPort q ∈
        (refresh_clone_in_place refreshAllOk "/data" "main" "pg-clone" 5432 "20250101-000000"
          none stRefresh).2.trace →
      Action.allocPort q ∈ stRefresh.trace) := by
  have h := refreshIdentity_spec refreshAllOk "/data" "main" "pg-clone" 5432 "20250101-000000"
    none stRefresh cloneContainerW 5440 "/data/main-clone-1"
    (by decide) (by decide) (by decide) lrRefreshW (by decide)
  exact ⟨by decide, h.1, h.2.1, h.2.2.2.1⟩

/-- C1: in a sane refresh environment (main volume present, target
container inspectable with its volume on disk, fresh temporary and
backup names) and with the rollback commands succeeding: (a) every
failure inside the guarded block — snapshot into the temporary path,
permission fixing, or the backup/move sequence — produces an error
result with the temporary volume absent, the target path present, and
the backup path absent (the temporary volume was deleted if it existed,
and the backup, when one had been made and the target was left absent,
was moved back); (b) when the guarded block succeeds but the relaunch
fails, the error propagates, the backup volume is still on disk at the
backup path, and no new subvolume delete was issued at all — the backup
is retained. -/
theorem refreshRollback_spec (o : RefreshOracle) (root main target : String)
    (optsHostPort : Nat) (ts : String) (dsc : Option String) (st : St)
    (c : Container) (P : Nat) (hostPath : String)
    (hc : st.containers.find? (fun c2 => c2.name == target) = some c)
    (hparse : c.parseOk = true)
    (hport : extractHostPort c.ports5432 = .ok P)
    (hmount : findDataMount c.mounts = some hostPath)
    (hsrc : st.fs (resolveStr (pyJoin root main)) = true)
    (hsv : st.subvol (resolveStr (pyJoin root main)) = true)
    (hostK tempK backupK : String)
    (hKh : hostK = resolveStr hostPath)
    (hKt : tempK = resolveStr (pyJoin (parentStr hostPath)
      (baseName hostPath ++ "-refresh-" ++ ts)))
    (hKb : backupK = resolveStr (pyJoin (parentStr hostPath)
      (baseName hostPath ++ "-prev-" ++ ts)))
    (hne1 : hostK ≠ tempK) (hne2 : hostK ≠ backupK) (hne3 : tempK ≠ backupK)
    (hfh : st.fs hostK = true) (hft : st.fs tempK = false) (hfb : st.fs backupK = false)
    (hrb1 : o.tempDelOk = true) (hrb2 : o.restoreMvOk = true) :
    ((o.snapOk && o.chownOk && o.chmodOk && o.backupMvOk && o.finalMvOk) = false →
       (∃ e, (refresh_clone_in_place o root main target optsHostPort ts dsc st).1 =
          .error e) ∧
       (refresh_clone_in_place o root main target optsHostPort ts dsc st).2.fs tempK = false ∧
       (refresh_clone_in_place o root main target optsHostPort ts dsc st).2.fs hostK = true ∧
       (refresh_clone_in_place o root main target optsHostPort ts dsc st).2.fs backupK = false) ∧
    (o.snapOk = true → o.chownOk = true → o.chmodOk = true → o.backupMvOk = true →
     o.finalMvOk = true →
     ∀ e, (refresh_clone_in_place o root main target optsHostPort ts dsc st).1 = .error e →
       (refresh_clone_in_place o root main target optsHostPort ts dsc st).2.fs backupK = true ∧
       (refresh_clone_in_place o root main target optsHostPort ts dsc st).2.fs hostK = true ∧
       (∀ pth, Action.btrfsDelete pth ∈
           (refresh_clone_in_place o root main target optsHostPort ts dsc st).2.trace →
         Action.btrfsDelete pth ∈ st.trace)) := by
  subst hKh
  subst hKt
  subst hKb
  have hne1s := Ne.symm hne1
  have hne2s := Ne.symm hne2
  have hne3s := Ne.symm hne3
  constructor
  · intro htry
    cases hsn : o.snapOk <;> cases hch : o.chownOk <;> cases hcm : o.chmodOk <;>
      cases hbm : o.backupMvOk <;> cases hfm : o.finalMvOk <;>
      first
        | (rw [hsn, hch, hcm, hbm, hfm] at htry; simp at htry; done)
        | (refine ⟨⟨.calledProcessError, ?_⟩, ?_, ?_, ?_⟩ <;>
           simp [refresh_clone_in_place, refreshRollback, hc, hparse, hport, hmount,
             hsrc, hsv, hsn, hch, hcm, hbm, hfm, hrb1, hrb2, upd, hfh, hft, hfb,
             hne1, hne2, hne3, hne1s, hne2s, hne3s])
  · intro hsn hch hcm hbm hfm e hErr
    rcases hEq : refresh_clone_in_place o root main target optsHostPort ts dsc st
      with ⟨res, st2⟩
    rw [hEq] at hErr
    simp only at hErr
    subst hErr
    simp only [refresh_clone_in_place, hc, hparse, hport, hmount] at hEq
    simp [hsrc, hsv, hsn, hch, hcm, hbm, hfm, upd, hfh, hft, hfb,
      hne1, hne2, hne3, hne1s, hne2s, hne3s] at hEq
    split at hEq
    all_goals try (exfalso; simp at hEq; done)
    rename (launch_clone_container _ _ _ _ _ _ _).1 = Except.error _ => heqL
    try simp only [*] at heqL
    have hL := pair_eta_err _ _ heqL
    obtain ⟨hfs2, hsv2, htr2⟩ := launch_st2 _ _ _ _ _ _ _ _ _ hL
    rw [Prod.mk.injEq] at hEq
    obtain ⟨he, hst⟩ := hEq
    rw [← hst]
    refine ⟨?_, ?_, ?_⟩
    · rw [hfs2]
      simp [upd, hfh, hne1, hne2, hne3, hne1s, hne2s, hne3s]
    · rw [hfs2]
      simp [upd, hfh, hne1, hne2, hne3, hne1s, hne2s, hne3s]
    · intro pth hm
      have h2 := htr2 pth hm
      try simp at h2
      tauto

theorem refreshRollback_spec_witness :
    ((∃ e, (refresh_clone_in_place refreshSnapFail "/data" "main" "pg-clone" 5432
        "20250101-000000" none stRefresh).1 = .error e) ∧
     (refresh_clone_in_place refreshSnapFail "/data" "main" "pg-clone" 5432
        "20250101-000000" none stRefresh).2.fs
          "/data/main-clone-1-refresh-20250101-000000" = false ∧
     (refresh_clone_in_place refreshSnapFail "/data" "main" "pg-clone" 5432
        "20250101-000000" none stRefresh).2.fs "/data/main-clone-1" = true ∧
     (refresh_clone_in_place refreshSnapFail "/data" "main" "pg-clone" 5432
        "20250101-000000" none stRefresh).2.fs
          "/data/main-clone-1-prev-20250101-000000" = false) ∧
    ((refresh_clone_in_place refreshRelaunchFail "/data" "main" "pg-clone" 5432
        "20250101-000000" none stRefresh).2.fs
          "/data/main-clone-1-prev-20250101-000000" = true ∧
     (∀ pth, Action.btrfsDelete pth ∈
         (refresh_clone_in_place refreshRelaunchFail "/data" "main" "pg-clone" 5432
           "20250101-000000" none stRefresh).2.trace →
       Action.btrfsDelete pth ∈ stRefresh.trace)) := by
  constructor
  · exact (refreshRollback_spec refreshSnapFail "/data" "main" "pg-clone" 5432
      "20250101-000000" none stRefresh cloneContainerW 5440 "/data/main-clone-1"
      (by decide) (by decide) (by decide) (by decide) (by decide) (by decide)
      "/data/main-clone-1" "/data/main-clone-1-refresh-20250101-000000"
      "/data/main-clone-1-prev-20250101-000000"
      (by decide) (by decide) (by decide) (by decide) (by decide) (by decide)
      (by decide) (by decide) (by decide) rfl rfl).1 rfl
  · have h := (refreshRollback_spec refreshRelaunchFail "/data" "main" "pg-clone" 5432
      "20250101-000000" none stRefresh cloneContainerW 5440 "/data/main-clone-1"
      (by decide) (by decide) (by decide) (by decide) (by decide) (by decide)
      "/data/main-clone-1" "/data/main-clone-1-refresh-20250101-000000"
      "/data/main-clone-1-prev-20250101-000000"
      (by decide) (by decide) (by decide) (by decide) (by decide) (by decide)
      (by decide) (by decide) (by decide) rfl rfl).2
      rfl rfl rfl rfl rfl .runtimeError (by decide)
    exact ⟨h.1, h.2.2⟩

end Snaplicator
